import Mathlib

/-!
Verification of the conversion engine of `Image.Converter.py`
(`ConverterThread.run` and its helpers), as a shallow embedding.

Python floats are modelled as exact rationals (`ℚ`); `int()` truncation is
modelled by `pyInt`; the file system, per-file decode outcomes, the
externally mutable skip policy, the cancellation flag and the wall clock are
modelled as explicit oracle inputs (`FileInfo.outcome`, `IterEnv`).
-/

namespace PsdConverter

/-- Model of Python's `int()` applied to a (real-valued) float: truncation toward
zero, modelled exactly on rationals. -/
def pyInt (q : ℚ) : ℤ := q.num.tdiv q.den

/-- Model of Python's float floor-division `x // y`. -/
def qFloorDiv (x y : ℚ) : ℚ := ((x / y).floor : ℚ)

/-- Model of Python's float modulo `x % y = x - y * (x // y)`. -/
def qMod (x y : ℚ) : ℚ := x - y * qFloorDiv x y

/-- The `SUPPORTED_FORMATS` list from the source. -/
def SUPPORTED_FORMATS : List String := ["PNG", "JPEG", "BMP", "GIF", "TIFF", "WEBP", "PDF"]

/-- An extension (already uppercased) that the loop body accepts for
processing: one of the seven target formats, or PSD (line 118 of the source:
`if ext not in SUPPORTED_FORMATS and ext != "PSD": continue`). -/
def recognizedExt (e : String) : Bool := SUPPORTED_FORMATS.contains e || e == "PSD"

/-- Target bounding box selected by `self.psd_resolution`
(source lines 145-153); every string other than HD and FHD falls to 4K. -/
def psdBox (psd_resolution : String) : Nat × Nat :=
  if psd_resolution = "HD" then (1280, 720)
  else if psd_resolution = "FHD" then (1920, 1080)
  else (3840, 2160)

/-- PSD resize computation, source lines 155-167: aspect-preserving fit to
the preset box, fixing width when the source is wider than the box. -/
def psdResize (psd_resolution : String) (width height : Nat) : Nat × Nat :=
  let target_width := (psdBox psd_resolution).1
  let target_height := (psdBox psd_resolution).2
  let ar : ℚ := (width : ℚ) / (height : ℚ)
  if (target_width : ℚ) / (target_height : ℚ) < ar then
    (target_width, (pyInt ((target_width : ℚ) / ar)).toNat)
  else
    ((pyInt ((target_height : ℚ) * ar)).toNat, target_height)

/-- Raster-image resize computation, source lines 196-233 (both the large-
and the small-file branch perform the same arithmetic): upscale-only to a
3840x2160 minimum. -/
def rasterResize (width height : Nat) : Nat × Nat :=
  let scale_w : ℚ := max 1 ((3840 : ℚ) / (width : ℚ))
  let scale_h : ℚ := max 1 ((2160 : ℚ) / (height : ℚ))
  let scale : ℚ := max scale_w scale_h
  if 1 < scale then
    ((pyInt ((width : ℚ) * scale)).toNat, (pyInt ((height : ℚ) * scale)).toNat)
  else (width, height)

/-- Decoded output dimensions by source kind (uppercased extension).
PDF pages are rendered by the external PyMuPDF renderer, so their pixel
dimensions are not determined by this arithmetic. -/
def decodeOutputDims (psd_resolution ext : String) (width height : Nat) :
    Option (Nat × Nat) :=
  if ext = "PSD" then some (psdResize psd_resolution width height)
  else if ext = "PDF" then none
  else some (rasterResize width height)

/-- Two-decimal rendering of a nonnegative rational, modelling the
`f"{mb_per_sec:.2f}"` format used for the speed text. -/
def fmt2 (x : ℚ) : String :=
  let n : ℤ := (x * 100 + 1 / 2).floor
  let frac : ℤ := n % 100
  toString (n / 100) ++ "." ++
    (if frac < 10 then "0" ++ toString frac else toString frac)

/-- ETA and speed text computation, source lines 330-352.  `elapsed` is
`time.time() - self.start_time`, `processed_size` the updated byte
accumulator, `progress` the integer percent just computed. -/
def etaSpeedText (elapsed : ℚ) (processed_size : Nat) (progress : ℤ) :
    String × String :=
  if 0 < elapsed ∧ 0 < processed_size then
    let mb_per_sec : ℚ := ((processed_size : ℚ) / 1024 / 1024) / elapsed
    let eta_text :=
      if 0 < progress then
        let total_time_estimate : ℚ := elapsed * (100 / (progress : ℚ))
        let remaining_seconds : ℚ := total_time_estimate - elapsed
        if remaining_seconds < 60 then
          "ETA: " ++ toString (pyInt remaining_seconds) ++ "s"
        else
          "ETA: " ++ toString (pyInt (qFloorDiv remaining_seconds 60)) ++ "m " ++
            toString (pyInt (qMod remaining_seconds 60)) ++ "s"
      else "ETA: Calculating..."
    (eta_text, "Speed: " ++ fmt2 mb_per_sec ++ " MB/s")
  else ("ETA: Calculating...", "Speed: Calculating...")

/-- Integer progress percent, source lines 98/112/292/309/328:
`int((processed_size / total_size) * 100)` when the precomputed total is
positive, else the file-count fallback. -/
def progressPct (processed_size total_size i total_files : Nat) : ℤ :=
  if 0 < total_size then
    pyInt (((processed_size : ℚ) / (total_size : ℚ)) * 100)
  else
    pyInt ((((i : ℚ) + 1) / (total_files : ℚ)) * 100)

/-- Outcome of the decode/normalize/encode attempt on one file (the `try`
body, source lines 130-285), as an oracle for the external world:
success carries the byte size of the written output as observed by the
post-save `os.path.getsize` (`none` when that lookup raises). -/
inductive ProcOutcome where
  | ok (outSize : Option Nat)
  | memoryError
  | importError (msg : String)
  | otherError (msg : String)
deriving DecidableEq

/-- One input path together with everything the run can observe about it.
`name`/`ext` are the stem and (dot-stripped, original-case) extension that
`os.path.splitext(os.path.basename(path))` would produce; `fexists` is
`os.path.exists`; `size` is the `os.path.getsize` value when that call
succeeds and `sizeLookupFails` says it raises instead (possible only for an
existing file, since the sort key guards `getsize` with `exists`). -/
structure FileInfo where
  path : String
  name : String
  ext : String
  fexists : Bool
  size : Nat
  sizeLookupFails : Bool
  outcome : ProcOutcome
deriving DecidableEq

/-- Model of `os.path.basename(file)`, rebuilt from stem and extension. -/
def basenameOf (f : FileInfo) : String :=
  if f.ext = "" then f.name else f.name ++ "." ++ f.ext

/-- The three Qt signals of `ConverterThread`, in emission order. -/
inductive Event where
  | progress (percent : ℤ) (eta : String) (speed : String)
  | error (msg : String) (kind : String)
  | completion (lastOutput : String) (totalIn : Nat) (totalOut : Nat)
      (succ : Nat) (fail : Nat)
deriving DecidableEq

/-- Mutable state of the thread during `run`, plus the emitted events. -/
structure RunState where
  success_count : Nat := 0
  failure_count : Nat := 0
  processed_size : Nat := 0
  last_output_path : String := ""
  output_total_size : Nat := 0
  events : List Event := []
deriving DecidableEq

/-- The externally mutable inputs as sampled during iteration `i`:
`running` is `self._is_running` at the loop head; `skipAllPre` is
`self.skip_all` as read at lines 95/110, `skipErrors` the skip list at line
110, `skipAllErr` is `self.skip_all` as re-read inside the exception
handlers (lines 289/306; the controller may have changed it while the file
was being processed); `elapsed` is `time.time() - self.start_time` at line
331. -/
structure IterEnv where
  running : Bool
  skipAllPre : Bool
  skipErrors : List String
  skipAllErr : Bool
  elapsed : ℚ

/-- The body of one `for` iteration (source lines 93-354) on file `f` at
enumerate index `i`.  Returns the new state and whether the thread died
with an uncaught exception (the unguarded `os.path.getsize` at line 111
raising). -/
def processFile (output_dir format_ : String) (total_size total_files : Nat)
    (e : IterEnv) (i : Nat) (f : FileInfo) (st : RunState) : RunState × Bool :=
  if f.fexists = false then
    if e.skipAllPre then
      let st1 := { st with failure_count := st.failure_count + 1,
                           processed_size := st.processed_size + 0 }
      let pct := progressPct st1.processed_size total_size i total_files
      ({ st1 with events := st1.events ++ [Event.progress pct "Skipping..." ""] }, false)
    else
      ({ st with
          events := st.events ++
            [Event.error ("File not found: " ++ f.path) "FILE_NOT_FOUND"],
          failure_count := st.failure_count + 1 }, false)
  else
    let ext := f.ext.toUpper
    if e.skipErrors.contains ext || e.skipAllPre then
      if f.sizeLookupFails then (st, true)
      else
        let st1 := { st with processed_size := st.processed_size + f.size }
        let pct := progressPct st1.processed_size total_size i total_files
        ({ st1 with
            events := st1.events ++ [Event.progress pct "Skipping..." ""],
            failure_count := st1.failure_count + 1 }, false)
    else if recognizedExt ext = false then (st, false)
    else
      let file_size := if f.sizeLookupFails then 0 else f.size
      let output_path := output_dir ++ "/" ++ f.name ++ "." ++ format_.toLower
      let st0 := { st with last_output_path := output_path }
      match f.outcome with
      | ProcOutcome.ok outSize =>
        let st1 := { st0 with success_count := st0.success_count + 1 }
        let st2 := { st1 with
            output_total_size := st1.output_total_size + outSize.getD 0 }
        let st3 := { st2 with processed_size := st2.processed_size + file_size }
        let pct := progressPct st3.processed_size total_size i total_files
        let ts := etaSpeedText e.elapsed st3.processed_size pct
        ({ st3 with events := st3.events ++ [Event.progress pct ts.1 ts.2] }, false)
      | ProcOutcome.memoryError =>
        if e.skipAllErr then
          let st1 := { st0 with failure_count := st0.failure_count + 1,
                                processed_size := st0.processed_size + file_size }
          let pct := progressPct st1.processed_size total_size i total_files
          ({ st1 with events := st1.events ++ [Event.progress pct "Skipping..." ""] }, false)
        else
          ({ st0 with
              events := st0.events ++
                [Event.error ("Not enough memory to process " ++ basenameOf f ++
                  ". Try closing other applications.") "MEMORY"],
              failure_count := st0.failure_count + 1 }, false)
      | ProcOutcome.importError msg =>
        ({ st0 with
            events := st0.events ++
              [Event.error ("Missing library: " ++ msg) "IMPORT_ERROR"],
            failure_count := st0.failure_count + 1 }, false)
      | ProcOutcome.otherError msg =>
        if e.skipAllErr then
          let st1 := { st0 with failure_count := st0.failure_count + 1,
                                processed_size := st0.processed_size + file_size }
          let pct := progressPct st1.processed_size total_size i total_files
          ({ st1 with events := st1.events ++ [Event.progress pct "Skipping..." ""] }, false)
        else
          ({ st0 with
              events := st0.events ++
                [Event.error ("Error processing " ++ basenameOf f ++ ": " ++ msg) ext],
              failure_count := st0.failure_count + 1 }, false)

/-- Key of the pre-sort at source line 85:
`os.path.getsize(f) if os.path.exists(f) else 0`. -/
def sortKey (f : FileInfo) : Nat := if f.fexists then f.size else 0

/-- Ordering relation of the pre-sort: ascending `sortKey`. -/
def fileLE (a b : FileInfo) : Prop := sortKey a ≤ sortKey b

instance : DecidableRel fileLE := fun a b => Nat.decLe (sortKey a) (sortKey b)

instance : IsTotal FileInfo fileLE := ⟨fun a b => Nat.le_total (sortKey a) (sortKey b)⟩

instance : IsTrans FileInfo fileLE :=
  ⟨fun _ _ _ h1 h2 => Nat.le_trans h1 h2⟩

/-- The best-effort pre-sort, source lines 83-87.  CPython's `list.sort`
with a key function computes every key before reordering anything, so if a
key lookup raises (an existing file whose `getsize` fails), the caught
exception leaves the list in its original order; otherwise the list is
stably sorted ascending by key. -/
def sortFiles (files : List FileInfo) : List FileInfo :=
  if files.any (fun f => f.fexists && f.sizeLookupFails) then files
  else List.insertionSort fileLE files

/-- Model of `self._calculate_total_size()`, source lines 61-68: files whose
`getsize` raises (missing or unreadable) contribute nothing. -/
def calculateTotalSize (files : List FileInfo) : Nat :=
  files.foldl
    (fun total f => if f.fexists && !f.sizeLookupFails then total + f.size else total) 0

/-- Constructor arguments of `ConverterThread`, plus the oracle for output
directory creation: `outputDirExists` is `os.path.exists(self.output_dir)`
at line 71 and `mkdirFails` tells whether `os.makedirs` would raise (with
message `mkdirErrMsg`). -/
structure Job where
  files : List FileInfo
  output_dir : String
  format_ : String
  psd_resolution : String
  outputDirExists : Bool
  mkdirFails : Bool
  mkdirErrMsg : String

/-- The for loop of `run`, source lines 89-354: the cancellation flag is
sampled once per iteration; an uncaught exception aborts the loop with the
crash flag set. -/
def runLoop (output_dir format_ : String) (total_size total_files : Nat)
    (env : Nat → IterEnv) : Nat → List FileInfo → RunState → RunState × Bool
  | _, [], st => (st, false)
  | i, f :: rest, st =>
    if (env i).running = false then (st, false)
    else
      let r := processFile output_dir format_ total_size total_files (env i) i f st
      if r.2 then r
      else runLoop output_dir format_ total_size total_files env (i + 1) rest r.1

/-- Model of `ConverterThread.run`, source lines 70-359. -/
def run (job : Job) (env : Nat → IterEnv) : RunState :=
  if job.outputDirExists = false ∧ job.mkdirFails = true then
    { events := [Event.error
        ("Failed to create output directory: " ++ job.mkdirErrMsg) "DIR_ERROR"] }
  else
    let total_size := calculateTotalSize job.files
    let total_files := job.files.length
    let files := sortFiles job.files
    let r := runLoop job.output_dir job.format_ total_size total_files env 0 files {}
    if r.2 then r.1
    else { r.1 with events := r.1.events ++
        [Event.completion r.1.last_output_path total_size r.1.output_total_size
          r.1.success_count r.1.failure_count] }

/-- The files the loop reaches before the cancellation flag stops it,
paired with the environment sampled at their iteration. -/
def reachedWithEnv (env : Nat → IterEnv) : Nat → List FileInfo → List (IterEnv × FileInfo)
  | _, [] => []
  | i, f :: rest =>
    if (env i).running = false then []
    else (env i, f) :: reachedWithEnv env (i + 1) rest

/-- A reached file that moves the success/failure counters: one that does
not exist, or is caught by the skip policy of its iteration, or has a
recognized extension. -/
def countedFile (p : IterEnv × FileInfo) : Bool :=
  !p.2.fexists || (p.1.skipErrors.contains p.2.ext.toUpper || p.1.skipAllPre) ||
    recognizedExt p.2.ext.toUpper

/-! ## Arithmetic helper lemmas -/

theorem pyInt_eq_floor (q : ℚ) (h : 0 ≤ q) : pyInt q = ⌊q⌋ := by
  rw [Rat.floor_def, pyInt,
    Int.tdiv_eq_ediv (Rat.num_nonneg.mpr h) (Int.natCast_nonneg q.den)]

theorem ratFloor_eq_intFloor (q : ℚ) : Rat.floor q = ⌊q⌋ := by
  rw [Rat.floor_def' q, Rat.floor_def]

theorem intCast_toNat (z : ℤ) (h : 0 ≤ z) : ((z.toNat : ℕ) : ℚ) = (z : ℚ) := by
  rw [← @Int.cast_natCast ℚ _ z.toNat, Int.toNat_of_nonneg h]

/-! ## Resolution policy (C3, C4) -/

theorem decodeOutputDims_raster (psd_resolution ext : String) (width height : Nat)
    (hpsd : ext ≠ "PSD") (hpdf : ext ≠ "PDF") :
    decodeOutputDims psd_resolution ext width height =
      some (rasterResize width height) := by
  unfold decodeOutputDims
  rw [if_neg hpsd, if_neg hpdf]

/-- C3: For every raster-image input (recognized extension other than
PSD and PDF) with native dimensions W x H: if `3840 ≤ W` and `2160 ≤ H` the
decoded output dimensions equal the input dimensions exactly; otherwise
both dimensions are scaled uniformly by `max 1 (max (3840/W) (2160/H))`
with integer truncation — independently of the job's resolution preset,
over which the statement is universally quantified. -/
theorem raster_resolution_policy (psd_resolution ext : String) (width height : Nat)
    (hw : 0 < width) (hh : 0 < height)
    (hrec : recognizedExt ext = true) (hpsd : ext ≠ "PSD") (hpdf : ext ≠ "PDF") :
    (3840 ≤ width ∧ 2160 ≤ height →
      decodeOutputDims psd_resolution ext width height = some (width, height)) ∧
    (¬(3840 ≤ width ∧ 2160 ≤ height) →
      decodeOutputDims psd_resolution ext width height =
        some ((pyInt ((width : ℚ) *
                max 1 (max ((3840 : ℚ) / (width : ℚ)) ((2160 : ℚ) / (height : ℚ))))).toNat,
              (pyInt ((height : ℚ) *
                max 1 (max ((3840 : ℚ) / (width : ℚ)) ((2160 : ℚ) / (height : ℚ))))).toNat)) := by
  have hw' : (0 : ℚ) < (width : ℚ) := by exact_mod_cast hw
  have hh' : (0 : ℚ) < (height : ℚ) := by exact_mod_cast hh
  have hde := decodeOutputDims_raster psd_resolution ext width height hpsd hpdf
  have hscale : max (max 1 ((3840 : ℚ) / (width : ℚ))) (max 1 ((2160 : ℚ) / (height : ℚ))) =
      max 1 (max ((3840 : ℚ) / (width : ℚ)) ((2160 : ℚ) / (height : ℚ))) := by
    rw [max_max_max_comm, max_self]
  constructor
  · rintro ⟨h1, h2⟩
    have ha : (3840 : ℚ) / (width : ℚ) ≤ 1 := (div_le_one hw').mpr (by exact_mod_cast h1)
    have hb : (2160 : ℚ) / (height : ℚ) ≤ 1 := (div_le_one hh').mpr (by exact_mod_cast h2)
    have hnot : ¬ (1 : ℚ) <
        max 1 (max ((3840 : ℚ) / (width : ℚ)) ((2160 : ℚ) / (height : ℚ))) := by
      rw [not_lt, max_le_iff, max_le_iff]
      exact ⟨le_rfl, ha, hb⟩
    rw [hde]
    simp only [rasterResize]
    rw [hscale, if_neg hnot]
  · intro hne
    have hor : width < 3840 ∨ height < 2160 := by omega
    have hlt : 1 < max ((3840 : ℚ) / (width : ℚ)) ((2160 : ℚ) / (height : ℚ)) := by
      rcases hor with h1 | h2
      · exact lt_max_of_lt_left ((one_lt_div hw').mpr (by exact_mod_cast h1))
      · exact lt_max_of_lt_right ((one_lt_div hh').mpr (by exact_mod_cast h2))
    have hpos : (1 : ℚ) <
        max 1 (max ((3840 : ℚ) / (width : ℚ)) ((2160 : ℚ) / (height : ℚ))) :=
      lt_max_of_lt_right hlt
    rw [hde]
    simp only [rasterResize]
    rw [hscale, if_pos hpos]

/-- Witness for `raster_resolution_policy`: at preset 4K, extension GIF,
a 4000x2500 image is left untouched and a 1920x1080 image is doubled. -/
theorem raster_resolution_policy_witness :
    decodeOutputDims "4K" "GIF" 4000 2500 = some (4000, 2500) ∧
    decodeOutputDims "4K" "GIF" 1920 1080 = some (3840, 2160) := by
  constructor
  · exact (raster_resolution_policy "4K" "GIF" 4000 2500 (by decide) (by decide)
      (by decide) (by decide) (by decide)).1 (by decide)
  · have h := (raster_resolution_policy "4K" "GIF" 1920 1080 (by decide) (by decide)
      (by decide) (by decide) (by decide)).2 (by decide)
    rw [h]
    exact congrArg some (by with_unfolding_all decide)

/-- C4: For every PSD input with positive dimensions W x H and any
resolution preset selecting target box Tw x Th (HD 1280x720, FHD 1920x1080,
4K 3840x2160 — any other string also yields the 4K box): if W/H exceeds
Tw/Th the output width is Tw and the height is derived from the source
aspect ratio, otherwise the output height is Th and the width is derived;
the derived dimension is within one pixel (truncation) of the exact
aspect-preserving value, and the resize may upscale (1000x500 grows to
3840x1920) or downscale (10000x4000 shrinks to 3840x1536). -/
theorem psd_resolution_policy (psd_resolution : String) (width height : Nat)
    (hw : 0 < width) (hh : 0 < height) :
    ((((psdBox psd_resolution).1 : ℚ) / ((psdBox psd_resolution).2 : ℚ) <
        (width : ℚ) / (height : ℚ)) →
      (psdResize psd_resolution width height).1 = (psdBox psd_resolution).1 ∧
      ((psdResize psd_resolution width height).2 : ℚ) ≤
        ((psdBox psd_resolution).1 : ℚ) * (height : ℚ) / (width : ℚ) ∧
      ((psdBox psd_resolution).1 : ℚ) * (height : ℚ) / (width : ℚ) <
        ((psdResize psd_resolution width height).2 : ℚ) + 1) ∧
    (¬(((psdBox psd_resolution).1 : ℚ) / ((psdBox psd_resolution).2 : ℚ) <
        (width : ℚ) / (height : ℚ)) →
      (psdResize psd_resolution width height).2 = (psdBox psd_resolution).2 ∧
      ((psdResize psd_resolution width height).1 : ℚ) ≤
        ((psdBox psd_resolution).2 : ℚ) * (width : ℚ) / (height : ℚ) ∧
      ((psdBox psd_resolution).2 : ℚ) * (width : ℚ) / (height : ℚ) <
        ((psdResize psd_resolution width height).1 : ℚ) + 1) ∧
    psdBox "HD" = (1280, 720) ∧ psdBox "FHD" = (1920, 1080) ∧
    psdBox "4K" = (3840, 2160) ∧
    psdResize "4K" 1000 500 = (3840, 1920) ∧
    psdResize "4K" 10000 4000 = (3840, 1536) := by
  have hw' : (0 : ℚ) < (width : ℚ) := by exact_mod_cast hw
  have hh' : (0 : ℚ) < (height : ℚ) := by exact_mod_cast hh
  refine ⟨?_, ?_, by decide, by decide, by decide,
    by with_unfolding_all decide, by with_unfolding_all decide⟩
  · intro hlt
    have hq : ((psdBox psd_resolution).1 : ℚ) / ((width : ℚ) / (height : ℚ)) =
        ((psdBox psd_resolution).1 : ℚ) * (height : ℚ) / (width : ℚ) :=
      div_div_eq_mul_div _ _ _
    have hq0 : 0 ≤ ((psdBox psd_resolution).1 : ℚ) * (height : ℚ) / (width : ℚ) := by
      positivity
    have hfl0 : 0 ≤ ⌊((psdBox psd_resolution).1 : ℚ) * (height : ℚ) / (width : ℚ)⌋ :=
      Int.floor_nonneg.mpr hq0
    have hres : psdResize psd_resolution width height =
        ((psdBox psd_resolution).1,
          (pyInt (((psdBox psd_resolution).1 : ℚ) / ((width : ℚ) / (height : ℚ)))).toNat) := by
      simp only [psdResize]
      rw [if_pos hlt]
    rw [hres]
    refine ⟨rfl, ?_, ?_⟩
    · rw [hq, pyInt_eq_floor _ hq0, intCast_toNat _ hfl0]
      exact Int.floor_le _
    · rw [hq, pyInt_eq_floor _ hq0, intCast_toNat _ hfl0]
      exact Int.lt_floor_add_one _
  · intro hge
    have hq : ((psdBox psd_resolution).2 : ℚ) * ((width : ℚ) / (height : ℚ)) =
        ((psdBox psd_resolution).2 : ℚ) * (width : ℚ) / (height : ℚ) :=
      (mul_div_assoc _ _ _).symm
    have hq0 : 0 ≤ ((psdBox psd_resolution).2 : ℚ) * (width : ℚ) / (height : ℚ) := by
      positivity
    have hfl0 : 0 ≤ ⌊((psdBox psd_resolution).2 : ℚ) * (width : ℚ) / (height : ℚ)⌋ :=
      Int.floor_nonneg.mpr hq0
    have hres : psdResize psd_resolution width height =
        ((pyInt (((psdBox psd_resolution).2 : ℚ) * ((width : ℚ) / (height : ℚ)))).toNat,
          (psdBox psd_resolution).2) := by
      simp only [psdResize]
      rw [if_neg hge]
    rw [hres]
    refine ⟨rfl, ?_, ?_⟩
    · rw [hq, pyInt_eq_floor _ hq0, intCast_toNat _ hfl0]
      exact Int.floor_le _
    · rw [hq, pyInt_eq_floor _ hq0, intCast_toNat _ hfl0]
      exact Int.lt_floor_add_one _

/-- Witness for `psd_resolution_policy`: a 4000x2000 source at preset FHD
(Scenario B of the spec) binds to width 1920 with the height derived from
the source aspect ratio. -/
theorem psd_resolution_policy_witness :
    (psdResize "FHD" 4000 2000).1 = (psdBox "FHD").1 ∧
    ((psdResize "FHD" 4000 2000).2 : ℚ) ≤
      ((psdBox "FHD").1 : ℚ) * (2000 : ℚ) / (4000 : ℚ) ∧
    psdResize "FHD" 4000 2000 = (1920, 960) := by
  have h := (psd_resolution_policy "FHD" 4000 2000 (by decide) (by decide)).1
    (by with_unfolding_all decide)
  exact ⟨h.1, h.2.1, by with_unfolding_all decide⟩

/-! ## ETA text format (C8) -/

theorem pyInt_intCast (k : ℤ) : pyInt ((k : ℤ) : ℚ) = k := by
  unfold pyInt
  rw [Rat.intCast_num, Rat.intCast_den]
  exact Int.tdiv_one k

theorem toString_intCast_nat (n : ℕ) : toString ((n : ℕ) : ℤ) = toString n := rfl

def c8File : FileInfo :=
  { path := "d.png", name := "d", ext := "png", fexists := true, size := 100,
    sizeLookupFails := false, outcome := ProcOutcome.ok none }

def c8Job : Job :=
  { files := [c8File], output_dir := "out", format_ := "PNG", psd_resolution := "4K",
    outputDirExists := true, mkdirFails := false, mkdirErrMsg := "" }

/-- A quiescent environment: running, no skip policy, clock at 30 s. -/
def baseEnv : Nat → IterEnv := fun _ =>
  { running := true, skipAllPre := false, skipErrors := [], skipAllErr := false,
    elapsed := 30 }

/-- C8 counterexample: A run that converts one 100-byte PNG with 30
seconds elapsed reaches percent 100 with remaining time 0 and emits the
determinate ETA text `"ETA: 0s"` — which carries the `"ETA: "` prefix and
is therefore not exactly the claimed `"0s"`. -/
theorem eta_text_counterexample :
    (run c8Job baseEnv).events =
      [Event.progress 100 "ETA: 0s" "Speed: 0.00 MB/s",
       Event.completion "out/d.png" 100 0 1 0] ∧
    "ETA: 0s" ≠ "0s" := by
  exact ⟨by with_unfolding_all decide, by decide⟩

/-- C8 amended: Whenever a determinate ETA is computed (elapsed time
positive, processed bytes positive, percent strictly between 0 and 100
inclusive), the emitted ETA text for truncated remaining seconds `r` is
exactly `"ETA: " ++ "{r}s"` when `r < 60`, and exactly
`"ETA: " ++ "{r/60}m {r%60}s"` otherwise — i.e. the claimed format holds
after the `"ETA: "` prefix. -/
theorem eta_text_format (elapsed : ℚ) (processed_size : Nat) (progress : ℤ)
    (he : 0 < elapsed) (hp : 0 < processed_size) (hg : 0 < progress)
    (hle : progress ≤ 100) :
    (etaSpeedText elapsed processed_size progress).1 =
      if (pyInt (elapsed * (100 / (progress : ℚ)) - elapsed)).toNat < 60 then
        "ETA: " ++
          toString ((pyInt (elapsed * (100 / (progress : ℚ)) - elapsed)).toNat) ++ "s"
      else
        "ETA: " ++
          toString ((pyInt (elapsed * (100 / (progress : ℚ)) - elapsed)).toNat / 60) ++
          "m " ++
          toString ((pyInt (elapsed * (100 / (progress : ℚ)) - elapsed)).toNat % 60) ++
          "s" := by
  have hprog : (0 : ℚ) < (progress : ℚ) := by exact_mod_cast hg
  have hk : (1 : ℚ) ≤ 100 / (progress : ℚ) :=
    (one_le_div hprog).mpr (by exact_mod_cast hle)
  set R : ℚ := elapsed * (100 / (progress : ℚ)) - elapsed with hRdef
  have hR0 : 0 ≤ R := by
    have := le_mul_of_one_le_right he.le hk
    rw [hRdef]
    linarith
  have hfl : pyInt R = ⌊R⌋ := pyInt_eq_floor R hR0
  have hfl0 : 0 ≤ ⌊R⌋ := Int.floor_nonneg.mpr hR0
  have hpy0 : 0 ≤ pyInt R := hfl ▸ hfl0
  have htn : ((pyInt R).toNat : ℤ) = ⌊R⌋ := by
    rw [Int.toNat_of_nonneg hpy0, hfl]
  simp only [etaSpeedText]
  rw [if_pos ⟨he, hp⟩]
  dsimp only
  rw [if_pos hg]
  have hts : toString (pyInt R) = toString ((pyInt R).toNat) := by
    rw [← toString_intCast_nat, Int.toNat_of_nonneg hpy0]
  by_cases h60 : R < 60
  · have hfl60 : ⌊R⌋ < 60 := Int.floor_lt.mpr (by exact_mod_cast h60)
    have hr60 : (pyInt R).toNat < 60 := by omega
    rw [if_pos h60, if_pos hr60, hts]
  · have hfl60 : ¬ ⌊R⌋ < 60 := fun hc =>
      h60 (by exact_mod_cast Int.floor_lt.mp hc)
    have hr60 : ¬ (pyInt R).toNat < 60 := by omega
    have hq60 : (0 : ℚ) < 60 := by norm_num
    have hquot : qFloorDiv R 60 = ((⌊R / 60⌋ : ℤ) : ℚ) := by
      rw [qFloorDiv, ratFloor_eq_intFloor]
    have hdivnn : 0 ≤ ⌊R / 60⌋ := Int.floor_nonneg.mpr (by positivity)
    have hcast60 : (60 : ℚ) = ((60 : ℕ) : ℚ) := by norm_num
    have hfloorqdiv : ⌊R / 60⌋ = (((pyInt R).toNat / 60 : ℕ) : ℤ) := by
      rw [← Int.toNat_of_nonneg hdivnn, Int.floor_toNat]
      have h1 : ⌊R / (60 : ℚ)⌋₊ = ⌊R⌋₊ / 60 := by
        rw [hcast60]
        exact Nat.floor_div_nat R 60
      rw [h1]
      have h2 : (pyInt R).toNat = ⌊R⌋₊ := by
        rw [hfl, Int.floor_toNat]
      rw [h2]
    have hpyquot : pyInt (qFloorDiv R 60) = (((pyInt R).toNat / 60 : ℕ) : ℤ) := by
      rw [hquot, pyInt_intCast, hfloorqdiv]
    have hmul_le : (60 : ℚ) * ((⌊R / 60⌋ : ℤ) : ℚ) ≤ R := by
      have h1 : ((⌊R / 60⌋ : ℤ) : ℚ) ≤ R / 60 := Int.floor_le _
      have h2 := (le_div_iff₀ hq60).mp h1
      linarith
    have hmod0 : 0 ≤ R - 60 * ((⌊R / 60⌋ : ℤ) : ℚ) := by linarith
    have hmodcast : (60 : ℚ) * ((⌊R / 60⌋ : ℤ) : ℚ) = (((60 * ⌊R / 60⌋ : ℤ)) : ℚ) := by
      push_cast
      ring
    have hpymod : pyInt (qMod R 60) = (((pyInt R).toNat % 60 : ℕ) : ℤ) := by
      rw [qMod, hquot, pyInt_eq_floor _ hmod0, hmodcast, Int.floor_sub_int,
        hfloorqdiv]
      omega
    rw [if_neg h60, if_neg hr60, hpyquot, hpymod, toString_intCast_nat,
      toString_intCast_nat]

/-- Witness for `eta_text_format`: 30 seconds into a 50-percent run the
text is `"ETA: 30s"`; 30 seconds into a 20-percent run it is
`"ETA: 2m 0s"`. -/
theorem eta_text_format_witness :
    (etaSpeedText 30 100 50).1 = "ETA: 30s" ∧
    (etaSpeedText 30 100 20).1 = "ETA: 2m 0s" := by
  constructor
  · have h := eta_text_format 30 100 50 (by norm_num) (by norm_num) (by norm_num)
      (by norm_num)
    rw [h]
    with_unfolding_all decide
  · have h := eta_text_format 30 100 20 (by norm_num) (by norm_num) (by norm_num)
      (by norm_num)
    rw [h]
    with_unfolding_all decide

/-! ## Fatal directory failure (C10) -/

/-- C10: If the output directory does not exist and creating it fails,
the run emits exactly one error event, of the directory-error kind, and
returns immediately: no progress event, no completion event, and every
counter and accumulator still at its initial value. -/
theorem dir_failure_aborts (job : Job) (env : Nat → IterEnv)
    (h1 : job.outputDirExists = false) (h2 : job.mkdirFails = true) :
    run job env =
      { success_count := 0, failure_count := 0, processed_size := 0,
        last_output_path := "", output_total_size := 0,
        events := [Event.error
          ("Failed to create output directory: " ++ job.mkdirErrMsg) "DIR_ERROR"] } := by
  unfold run
  rw [if_pos ⟨h1, h2⟩]

def c10Job : Job :=
  { files := [c8File], output_dir := "out", format_ := "PNG", psd_resolution := "4K",
    outputDirExists := false, mkdirFails := true, mkdirErrMsg := "Permission denied" }

/-- Witness for `dir_failure_aborts` on a concrete job. -/
theorem dir_failure_aborts_witness :
    run c10Job baseEnv =
      { success_count := 0, failure_count := 0, processed_size := 0,
        last_output_path := "", output_total_size := 0,
        events := [Event.error
          ("Failed to create output directory: " ++ "Permission denied") "DIR_ERROR"] } :=
  dir_failure_aborts c10Job baseEnv rfl rfl

/-! ## Missing-file scenario (C6) -/

/-- C6: A job whose single input path does not exist, run with skip-all
inactive, emits exactly one error event — kind `FILE_NOT_FOUND` — followed
only by the completion event; it ends with `failure_count = 1`,
`success_count = 0`, and the processed-bytes accumulator still at 0 (no
progress event is emitted for that file). -/
theorem missing_file_scenario (f : FileInfo) (job : Job) (env : Nat → IterEnv)
    (hfiles : job.files = [f]) (hex : f.fexists = false)
    (hdir : job.outputDirExists = true)
    (hrun : (env 0).running = true) (hskip : (env 0).skipAllPre = false) :
    run job env =
      { success_count := 0, failure_count := 1, processed_size := 0,
        last_output_path := "", output_total_size := 0,
        events := [Event.error ("File not found: " ++ f.path) "FILE_NOT_FOUND",
          Event.completion "" 0 0 0 1] } := by
  obtain ⟨files, output_dir, format_, psd_resolution, de, mf, msg⟩ := job
  simp only at hfiles hdir
  subst hfiles
  subst hdir
  unfold run
  rw [if_neg (by simp)]
  simp [calculateTotalSize, sortFiles, runLoop, processFile, hex, hrun, hskip]

def c6File : FileInfo :=
  { path := "gone.png", name := "gone", ext := "png", fexists := false, size := 0,
    sizeLookupFails := false, outcome := ProcOutcome.ok none }

def c6Job : Job :=
  { files := [c6File], output_dir := "out", format_ := "PNG", psd_resolution := "4K",
    outputDirExists := true, mkdirFails := false, mkdirErrMsg := "" }

/-- Witness for `missing_file_scenario` on a concrete job. -/
theorem missing_file_scenario_witness :
    run c6Job baseEnv =
      { success_count := 0, failure_count := 1, processed_size := 0,
        last_output_path := "", output_total_size := 0,
        events := [Event.error ("File not found: " ++ "gone.png") "FILE_NOT_FOUND",
          Event.completion "" 0 0 0 1] } :=
  missing_file_scenario c6File c6Job baseEnv rfl rfl rfl rfl rfl

/-! ## Best-effort pre-sort (C7) -/

/-- C7: The pre-sort applied to the job's file list before the first
iteration (and nowhere else — `run` sorts once and `runLoop` never
re-sorts): if the size lookup fails for any file in the list the sort is
skipped entirely and the original order is kept; otherwise the list is
permuted into ascending byte-size order (missing files keyed 0), stably —
files of equal key keep their relative order. -/
theorem presort_best_effort (files : List FileInfo) :
    (files.any (fun f => f.fexists && f.sizeLookupFails) = true →
      sortFiles files = files) ∧
    (files.any (fun f => f.fexists && f.sizeLookupFails) = false →
      (sortFiles files).Pairwise fileLE ∧
      (sortFiles files).Perm files ∧
      ∀ k : Nat, (sortFiles files).filter (fun f => sortKey f == k) =
        files.filter (fun f => sortKey f == k)) := by
  constructor
  · intro h
    rw [sortFiles, if_pos h]
  · intro h
    have hsf : sortFiles files = List.insertionSort fileLE files := by
      rw [sortFiles, if_neg (by simp [h])]
    refine ⟨?_, ?_, ?_⟩
    · rw [hsf]
      exact List.sorted_insertionSort fileLE files
    · rw [hsf]
      exact List.perm_insertionSort fileLE files
    · intro k
      rw [hsf]
      have hpw : (files.filter (fun f => sortKey f == k)).Pairwise fileLE := by
        apply List.pairwise_of_forall_mem_list
        intro a ha b hb
        have hka : sortKey a = k := by
          simpa using (List.mem_filter.mp ha).2
        have hkb : sortKey b = k := by
          simpa using (List.mem_filter.mp hb).2
        unfold fileLE
        rw [hka, hkb]
      have hsub : List.Sublist (files.filter (fun f => sortKey f == k))
          (List.insertionSort fileLE files) :=
        List.sublist_insertionSort hpw (List.filter_sublist files)
      have hsub2 : List.Sublist (files.filter (fun f => sortKey f == k))
          ((List.insertionSort fileLE files).filter (fun f => sortKey f == k)) := by
        have := hsub.filter (fun f => sortKey f == k)
        rwa [List.filter_filter, show
          (fun f => (sortKey f == k) && (sortKey f == k)) =
            (fun f => sortKey f == k) from funext fun f => by
              cases h : (sortKey f == k) <;> simp [h]] at this
      have hlen : ((List.insertionSort fileLE files).filter
          (fun f => sortKey f == k)).length =
          (files.filter (fun f => sortKey f == k)).length :=
        ((List.perm_insertionSort fileLE files).filter _).length_eq
      exact (hsub2.eq_of_length hlen.symm).symm

/-- Witness for `presort_best_effort`: a failing size lookup keeps the
original order; without failures a two-file list is stably sorted
ascending. -/
theorem presort_best_effort_witness :
    sortFiles [c8File, c6File] = [c6File, c8File] ∧
    sortFiles [{ c8File with sizeLookupFails := true }, c6File] =
      [{ c8File with sizeLookupFails := true }, c6File] := by
  constructor
  · have h := (presort_best_effort [c8File, c6File]).2 (by decide)
    with_unfolding_all decide
  · exact (presort_best_effort _).1 (by decide)

/-! ## Monotone processed-bytes accumulator (C9) -/

theorem processFile_processed (output_dir format_ : String)
    (total_size total_files : Nat) (e : IterEnv) (i : Nat) (f : FileInfo)
    (st : RunState) :
    (processFile output_dir format_ total_size total_files e i f st).1.processed_size =
        st.processed_size ∨
    (processFile output_dir format_ total_size total_files e i f st).1.processed_size =
        st.processed_size + (if f.sizeLookupFails then 0 else f.size) := by
  obtain ⟨p, n, ex, fe, sz, slf, oc⟩ := f
  cases oc <;>
    simp only [processFile] <;>
    split_ifs <;>
    simp_all

theorem runLoop_processed_mono (output_dir format_ : String)
    (total_size total_files : Nat) (env : Nat → IterEnv) :
    ∀ (files : List FileInfo) (i : Nat) (st : RunState),
      st.processed_size ≤
        (runLoop output_dir format_ total_size total_files env i files st).1.processed_size := by
  intro files
  induction files with
  | nil => intro i st; simp [runLoop]
  | cons f rest ih =>
    intro i st
    rw [runLoop]
    by_cases hrun : (env i).running = false
    · rw [if_pos hrun]
    · rw [if_neg hrun]
      have hstep : st.processed_size ≤
          (processFile output_dir format_ total_size total_files (env i) i f st).1.processed_size := by
        rcases processFile_processed output_dir format_ total_size total_files
          (env i) i f st with h | h <;> omega
      by_cases hc :
          (processFile output_dir format_ total_size total_files (env i) i f st).2
      · simp only [hc, if_true]
        exact hstep
      · simp only [hc, if_false, Bool.false_eq_true]
        exact le_trans hstep (ih (i + 1) _)

/-! ## Counter accounting (C1) -/

theorem processFile_counts (output_dir format_ : String)
    (total_size total_files : Nat) (e : IterEnv) (i : Nat) (f : FileInfo)
    (st : RunState) (hf : f.fexists = true → f.sizeLookupFails = false) :
    (processFile output_dir format_ total_size total_files e i f st).2 = false ∧
    (processFile output_dir format_ total_size total_files e i f st).1.success_count +
        (processFile output_dir format_ total_size total_files e i f st).1.failure_count =
      st.success_count + st.failure_count + (if countedFile (e, f) then 1 else 0) := by
  obtain ⟨p, n, ex, fe, sz, slf, oc⟩ := f
  cases oc <;>
    simp only [processFile, countedFile] <;>
    split_ifs <;>
    simp_all <;>
    omega

theorem runLoop_counts (output_dir format_ : String) (total_size total_files : Nat)
    (env : Nat → IterEnv) :
    ∀ (files : List FileInfo) (i : Nat) (st : RunState),
      (∀ f ∈ files, f.fexists = true → f.sizeLookupFails = false) →
      (runLoop output_dir format_ total_size total_files env i files st).2 = false ∧
      (runLoop output_dir format_ total_size total_files env i files st).1.success_count +
          (runLoop output_dir format_ total_size total_files env i files st).1.failure_count =
        st.success_count + st.failure_count +
          ((reachedWithEnv env i files).filter countedFile).length := by
  intro files
  induction files with
  | nil =>
    intro i st _
    simp [runLoop, reachedWithEnv]
  | cons f rest ih =>
    intro i st h
    rw [runLoop, reachedWithEnv]
    by_cases hrun : (env i).running = false
    · rw [if_pos hrun, if_pos hrun]
      simp
    · rw [if_neg hrun, if_neg hrun]
      have hf := h f (List.mem_cons_self f rest)
      have hpc := processFile_counts output_dir format_ total_size total_files
        (env i) i f st hf
      have hrest := ih (i + 1)
        (processFile output_dir format_ total_size total_files (env i) i f st).1
        (fun g hg => h g (List.mem_cons_of_mem f hg))
      simp only [hpc.1, Bool.false_eq_true, if_false]
      refine ⟨hrest.1, ?_⟩
      rw [hrest.2, hpc.2, List.filter_cons]
      by_cases hcf : countedFile (env i, f)
      · simp only [hcf, if_true, List.length_cons]
        omega
      · simp only [hcf, Bool.false_eq_true, if_false]
        omega

def c1File : FileInfo :=
  { path := "a.xyz", name := "a", ext := "xyz", fexists := false, size := 0,
    sizeLookupFails := false, outcome := ProcOutcome.ok none }

def c1Job : Job :=
  { files := [c1File], output_dir := "out", format_ := "PNG", psd_resolution := "4K",
    outputDirExists := true, mkdirFails := false, mkdirErrMsg := "" }

/-- C1 counterexample: A job whose single file is missing and has the
unrecognized extension `xyz` (skip-all inactive, never cancelled) ends with
`success_count + failure_count = 1`, although the loop reached zero files
with a recognized extension — a file with an unrecognized extension did
change `failure_count`, because the existence check at line 93 runs before
the extension check at line 118. -/
theorem counter_invariant_counterexample :
    (run c1Job baseEnv).success_count + (run c1Job baseEnv).failure_count = 1 ∧
    (c1Job.files.filter (fun f => recognizedExt f.ext.toUpper)).length = 0 ∧
    c1File.fexists = false ∧ recognizedExt c1File.ext.toUpper = false := by
  exact ⟨by with_unfolding_all decide, by with_unfolding_all decide, rfl,
    by with_unfolding_all decide⟩

theorem mem_sortFiles {f : FileInfo} {files : List FileInfo} :
    f ∈ sortFiles files ↔ f ∈ files := by
  rw [sortFiles]
  split
  · exact Iff.rfl
  · exact (List.perm_insertionSort fileLE files).mem_iff

/-- C1 amended: In any run that passes directory creation and whose
size lookups succeed, `success_count + failure_count` equals the number of
files reached before cancellation that are *counted*: missing, or caught by
the skip policy of their iteration, or of recognized extension.  A file
with an unrecognized extension leaves both counters unchanged only when it
exists and escapes the skip policy; when it is missing, or the skip
set/skip-all catches it, it increments `failure_count`. -/
theorem counter_invariant_amended (job : Job) (env : Nat → IterEnv)
    (hdir : job.outputDirExists = true ∨ job.mkdirFails = false)
    (hsize : ∀ f ∈ job.files, f.fexists = true → f.sizeLookupFails = false) :
    (run job env).success_count + (run job env).failure_count =
      ((reachedWithEnv env 0 (sortFiles job.files)).filter countedFile).length := by
  have hs : ∀ f ∈ sortFiles job.files, f.fexists = true → f.sizeLookupFails = false :=
    fun f hf => hsize f (mem_sortFiles.mp hf)
  have h := runLoop_counts job.output_dir job.format_ (calculateTotalSize job.files)
    job.files.length env (sortFiles job.files) 0 {} hs
  unfold run
  rw [if_neg (by rcases hdir with h1 | h1 <;> simp [h1])]
  simp only [h.1, Bool.false_eq_true, if_false]
  have h2 := h.2
  simp only [RunState.success_count, RunState.failure_count] at h2 ⊢
  omega

/-- Witness for `counter_invariant_amended` on the concrete job of the
counterexample: one reached, counted (missing) file. -/
theorem counter_invariant_amended_witness :
    (run c1Job baseEnv).success_count + (run c1Job baseEnv).failure_count =
      ((reachedWithEnv baseEnv 0 (sortFiles c1Job.files)).filter countedFile).length :=
  counter_invariant_amended c1Job baseEnv (Or.inl rfl) (by decide)

/-! ## Progress on failure (C2) -/

def c2File : FileInfo :=
  { path := "b.png", name := "b", ext := "png", fexists := true, size := 100,
    sizeLookupFails := false, outcome := ProcOutcome.memoryError }

def c2Job : Job :=
  { files := [c2File], output_dir := "out", format_ := "PNG", psd_resolution := "4K",
    outputDirExists := true, mkdirFails := false, mkdirErrMsg := "" }

/-- C2 counterexample: A run over one existing 100-byte PNG whose
processing hits an out-of-memory failure with skip-all inactive counts the
failure but never advances the processed-bytes accumulator: it ends at 0 of
a 100-byte total, so the uncancelled run's byte-weighted progress never
reaches 100%. -/
theorem progress_failure_counterexample :
    (run c2Job baseEnv).failure_count = 1 ∧
    (run c2Job baseEnv).processed_size = 0 ∧
    calculateTotalSize c2Job.files = 100 := by
  exact ⟨by with_unfolding_all decide, by with_unfolding_all decide, by decide⟩

/-- C2 amended: For a reached, existing, recognized file that the
skip policy does not catch, the processed-bytes accumulator advances by the
file's size on success, and on failure only when skip-all is active at the
time of the failure (out-of-memory or generic errors); missing-dependency
failures never advance it, and with skip-all inactive no failure advances
it — so an uncancelled run's progress accounting can stop short of 100%. -/
theorem progress_failure_amended (output_dir format_ : String)
    (total_size total_files : Nat) (e : IterEnv) (i : Nat) (f : FileInfo)
    (st : RunState) (hex : f.fexists = true)
    (hrec : recognizedExt f.ext.toUpper = true)
    (hskip : (e.skipErrors.contains f.ext.toUpper || e.skipAllPre) = false) :
    ((∃ s, f.outcome = ProcOutcome.ok s) →
      (processFile output_dir format_ total_size total_files e i f st).1.processed_size =
        st.processed_size + (if f.sizeLookupFails then 0 else f.size)) ∧
    ((f.outcome = ProcOutcome.memoryError ∨
        ∃ m, f.outcome = ProcOutcome.otherError m) →
      (processFile output_dir format_ total_size total_files e i f st).1.processed_size =
        st.processed_size +
          (if e.skipAllErr then (if f.sizeLookupFails then 0 else f.size) else 0)) ∧
    ((∃ m, f.outcome = ProcOutcome.importError m) →
      (processFile output_dir format_ total_size total_files e i f st).1.processed_size =
        st.processed_size) := by
  obtain ⟨p, n, ex, fe, sz, slf, oc⟩ := f
  simp only at hex hrec hskip
  simp only [Bool.or_eq_false_iff] at hskip
  refine ⟨?_, ?_, ?_⟩
  · rintro ⟨s, hs⟩
    simp only at hs
    subst hs
    simp_all [processFile]
  · rintro (hs | ⟨m, hs⟩) <;>
      · simp only at hs
        subst hs
        by_cases hsa : e.skipAllErr <;> simp_all [processFile]
  · rintro ⟨m, hs⟩
    simp only at hs
    subst hs
    simp_all [processFile]

/-- Witness for `progress_failure_amended`: the out-of-memory file of the
counterexample, with skip-all inactive, leaves processed-bytes unchanged. -/
theorem progress_failure_amended_witness :
    (processFile "out" "PNG" 100 1 (baseEnv 0) 0 c2File
        {}).1.processed_size =
      ({} : RunState).processed_size +
        (if (baseEnv 0).skipAllErr then
            (if c2File.sizeLookupFails then 0 else c2File.size) else 0) ∧
    (processFile "out" "PNG" 100 1 (baseEnv 0) 0 c2File {}).1.processed_size = 0 := by
  refine ⟨(progress_failure_amended "out" "PNG" 100 1 (baseEnv 0) 0 c2File {}
    (by decide) (by with_unfolding_all decide) (by with_unfolding_all decide)).2.1
    (Or.inl rfl), ?_⟩
  with_unfolding_all decide

/-! ## Skip-all at failure time (C5) -/

def c5File : FileInfo :=
  { path := "c.pdf", name := "c", ext := "pdf", fexists := true, size := 100,
    sizeLookupFails := false,
    outcome := ProcOutcome.importError
      "PDF conversion requires PyMuPDF. Please install with: pip install PyMuPDF" }

def c5Job : Job :=
  { files := [c5File], output_dir := "out", format_ := "PNG", psd_resolution := "4K",
    outputDirExists := true, mkdirFails := false, mkdirErrMsg := "" }

def c5Env : Nat → IterEnv := fun _ =>
  { running := true, skipAllPre := false, skipErrors := [], skipAllErr := true,
    elapsed := 30 }

/-- C5 counterexample: A missing-dependency failure (PDF with PyMuPDF
absent) while the skip-all flag is active still emits an error event of
kind `IMPORT_ERROR` and does not advance processed-bytes: the `ImportError`
handler at lines 299-303 never consults skip-all. -/
theorem skip_all_failure_counterexample :
    (run c5Job c5Env).events =
      [Event.error ("Missing library: " ++
        "PDF conversion requires PyMuPDF. Please install with: pip install PyMuPDF")
        "IMPORT_ERROR",
       Event.completion "out/c.png" 100 0 0 1] ∧
    (run c5Job c5Env).processed_size = 0 ∧
    (c5Env 0).skipAllErr = true := by
  exact ⟨by with_unfolding_all decide, by with_unfolding_all decide, rfl⟩

/-- C5 amended: For a reached, existing, recognized file not caught
by the skip policy: an out-of-memory or generic processing failure behaves
as the claim states — with skip-all active at failure time the file is
counted Failed, processed-bytes advances by its size, a progress snapshot
is emitted and no error event; with skip-all inactive an error event with a
message and a kind is emitted, the file is counted Failed, and bytes do not
advance.  A missing-dependency failure, however, always emits an
`IMPORT_ERROR` error event, counts Failed, and never advances
processed-bytes, regardless of skip-all. -/
theorem skip_all_failure_amended (output_dir format_ : String)
    (total_size total_files : Nat) (e : IterEnv) (i : Nat) (f : FileInfo)
    (st : RunState) (hex : f.fexists = true)
    (hrec : recognizedExt f.ext.toUpper = true)
    (hskip : (e.skipErrors.contains f.ext.toUpper || e.skipAllPre) = false) :
    (f.outcome = ProcOutcome.memoryError →
      (e.skipAllErr = true →
        (processFile output_dir format_ total_size total_files e i f st).1.failure_count =
          st.failure_count + 1 ∧
        (processFile output_dir format_ total_size total_files e i f st).1.success_count =
          st.success_count ∧
        (processFile output_dir format_ total_size total_files e i f st).1.processed_size =
          st.processed_size + (if f.sizeLookupFails then 0 else f.size) ∧
        (processFile output_dir format_ total_size total_files e i f st).1.events =
          st.events ++ [Event.progress
            (progressPct (st.processed_size + (if f.sizeLookupFails then 0 else f.size))
              total_size i total_files) "Skipping..." ""]) ∧
      (e.skipAllErr = false →
        (processFile output_dir format_ total_size total_files e i f st).1.failure_count =
          st.failure_count + 1 ∧
        (processFile output_dir format_ total_size total_files e i f st).1.processed_size =
          st.processed_size ∧
        (processFile output_dir format_ total_size total_files e i f st).1.events =
          st.events ++ [Event.error ("Not enough memory to process " ++ basenameOf f ++
            ". Try closing other applications.") "MEMORY"])) ∧
    (∀ m, f.outcome = ProcOutcome.otherError m →
      (e.skipAllErr = true →
        (processFile output_dir format_ total_size total_files e i f st).1.failure_count =
          st.failure_count + 1 ∧
        (processFile output_dir format_ total_size total_files e i f st).1.success_count =
          st.success_count ∧
        (processFile output_dir format_ total_size total_files e i f st).1.processed_size =
          st.processed_size + (if f.sizeLookupFails then 0 else f.size) ∧
        (processFile output_dir format_ total_size total_files e i f st).1.events =
          st.events ++ [Event.progress
            (progressPct (st.processed_size + (if f.sizeLookupFails then 0 else f.size))
              total_size i total_files) "Skipping..." ""]) ∧
      (e.skipAllErr = false →
        (processFile output_dir format_ total_size total_files e i f st).1.failure_count =
          st.failure_count + 1 ∧
        (processFile output_dir format_ total_size total_files e i f st).1.processed_size =
          st.processed_size ∧
        (processFile output_dir format_ total_size total_files e i f st).1.events =
          st.events ++ [Event.error ("Error processing " ++ basenameOf f ++ ": " ++ m)
            f.ext.toUpper])) ∧
    (∀ m, f.outcome = ProcOutcome.importError m →
      (processFile output_dir format_ total_size total_files e i f st).1.events =
        st.events ++ [Event.error ("Missing library: " ++ m) "IMPORT_ERROR"] ∧
      (processFile output_dir format_ total_size total_files e i f st).1.failure_count =
        st.failure_count + 1 ∧
      (processFile output_dir format_ total_size total_files e i f st).1.success_count =
        st.success_count ∧
      (processFile output_dir format_ total_size total_files e i f st).1.processed_size =
        st.processed_size) := by
  obtain ⟨p, n, ex, fe, sz, slf, oc⟩ := f
  simp only at hex hrec hskip
  simp only [Bool.or_eq_false_iff] at hskip
  refine ⟨?_, ?_, ?_⟩
  · intro hs
    simp only at hs
    subst hs
    constructor <;> intro hsa <;> simp_all [processFile, basenameOf]
  · intro m hs
    simp only at hs
    subst hs
    constructor <;> intro hsa <;> simp_all [processFile, basenameOf]
  · intro m hs
    simp only at hs
    subst hs
    simp_all [processFile, basenameOf]

/-- Witness for `skip_all_failure_amended`: an out-of-memory failure with
skip-all active at failure time is counted Failed with bytes advanced and a
progress snapshot, no error event. -/
theorem skip_all_failure_amended_witness :
    (processFile "out" "PNG" 100 1 (c5Env 0) 0 c2File {}).1.failure_count =
      ({} : RunState).failure_count + 1 ∧
    (processFile "out" "PNG" 100 1 (c5Env 0) 0 c2File {}).1.processed_size =
      ({} : RunState).processed_size +
        (if c2File.sizeLookupFails then 0 else c2File.size) := by
  have h := ((skip_all_failure_amended "out" "PNG" 100 1 (c5Env 0) 0 c2File {}
    (by decide) (by with_unfolding_all decide) (by with_unfolding_all decide)).1 rfl).1 rfl
  exact ⟨h.1, h.2.2.1⟩

/-- C9: Within a run the processed-bytes accumulator is monotonically
non-decreasing: each iteration either leaves it unchanged (missing file,
unrecognized extension, or a failure outside skip-all) or adds exactly the
file's byte size (0 when its size lookup fails), and across the whole loop
the accumulator never decreases and is never reset. -/
theorem processed_size_monotone :
    (∀ (output_dir format_ : String) (total_size total_files : Nat) (e : IterEnv)
        (i : Nat) (f : FileInfo) (st : RunState),
      (processFile output_dir format_ total_size total_files e i f st).1.processed_size =
          st.processed_size ∨
      (processFile output_dir format_ total_size total_files e i f st).1.processed_size =
          st.processed_size + (if f.sizeLookupFails then 0 else f.size)) ∧
    (∀ (output_dir format_ : String) (total_size total_files : Nat)
        (env : Nat → IterEnv) (files : List FileInfo) (i : Nat) (st : RunState),
      st.processed_size ≤
        (runLoop output_dir format_ total_size total_files env i files st).1.processed_size) :=
  ⟨processFile_processed,
   fun output_dir format_ total_size total_files env files i st =>
     runLoop_processed_mono output_dir format_ total_size total_files env files i st⟩

end PsdConverter
